import Mathlib

/-!
Shallow embedding of the irmin-go HTTP client (src/irmin/http.go) and proofs
about its command/streaming protocol layer.  Go strings are modelled as Lean
strings; Go byte slices (the repository's IrminString type, defined in a file
outside src/) as lists of byte values.  The HTTP transport, the JSON codec and
the net/url package are external collaborators: they are modelled at their
interfaces, with doc comments saying which behaviour is captured.
-/

namespace Irmin

/-- UTF-8 encoding of a single character, byte values as naturals.  A Go
string literal such as "ok" denotes exactly this byte sequence. -/
def utf8EncodeChar (c : Char) : List Nat :=
  let n := c.toNat
  if n < 128 then [n]
  else if n < 2048 then [192 + n / 64, 128 + n % 64]
  else if n < 65536 then [224 + n / 4096, 128 + (n / 64) % 64, 128 + n % 64]
  else [240 + n / 262144, 128 + (n / 4096) % 64, 128 + (n / 64) % 64, 128 + n % 64]

/-- The byte sequence of a Go string (Go strings are UTF-8 byte strings). -/
def utf8Bytes (s : String) : List Nat :=
  s.data.flatMap utf8EncodeChar

/-- Go type `IrminString` (declared in a repository file not under src/):
a byte slice with custom JSON marshalling.  Modelled as a list of bytes. -/
abbrev IrminString := List Nat

/-- Whether a byte is a UTF-8 continuation byte (0x80..0xBF). -/
def contB (b : Nat) : Bool := 128 ≤ b && b ≤ 191

/-- Modelled from the Go standard library collaborator `unicode/utf8.Valid`:
standard UTF-8 validity of a byte sequence (rejects overlong encodings,
surrogates and code points above U+10FFFF). -/
def utf8Valid : List Nat → Bool
  | [] => true
  | b :: rest =>
    if b ≤ 127 then utf8Valid rest
    else if 194 ≤ b && b ≤ 223 then
      match rest with
      | b1 :: r => contB b1 && utf8Valid r
      | _ => false
    else if b = 224 then
      match rest with
      | b1 :: b2 :: r => (160 ≤ b1 && b1 ≤ 191) && contB b2 && utf8Valid r
      | _ => false
    else if (225 ≤ b && b ≤ 236) || b = 238 || b = 239 then
      match rest with
      | b1 :: b2 :: r => contB b1 && contB b2 && utf8Valid r
      | _ => false
    else if b = 237 then
      match rest with
      | b1 :: b2 :: r => (128 ≤ b1 && b1 ≤ 159) && contB b2 && utf8Valid r
      | _ => false
    else if b = 240 then
      match rest with
      | b1 :: b2 :: b3 :: r => (144 ≤ b1 && b1 ≤ 191) && contB b2 && contB b3 && utf8Valid r
      | _ => false
    else if 241 ≤ b && b ≤ 243 then
      match rest with
      | b1 :: b2 :: b3 :: r => contB b1 && contB b2 && contB b3 && utf8Valid r
      | _ => false
    else if b = 244 then
      match rest with
      | b1 :: b2 :: b3 :: r => (128 ≤ b1 && b1 ≤ 143) && contB b2 && contB b3 && utf8Valid r
      | _ => false
    else false

/-- Upper-case hexadecimal digit for a value below 16. -/
def upperHexDigit (n : Nat) : Char := Char.ofNat (if n < 10 then 48 + n else 55 + n)

/-- Bytes kept verbatim by Go's `url.QueryEscape`: ASCII letters, digits,
and the four marks `-` `_` `.` `~`. -/
def isUnreservedQueryByte (b : Nat) : Bool :=
  (65 ≤ b && b ≤ 90) || (97 ≤ b && b ≤ 122) || (48 ≤ b && b ≤ 57) ||
  b = 45 || b = 95 || b = 46 || b = 126

/-- Escaping of one byte under `url.QueryEscape`: unreserved bytes verbatim,
space as `+`, everything else as `%XX` with upper-case hex. -/
def escapeQueryByte (b : Nat) : List Char :=
  if isUnreservedQueryByte b then [Char.ofNat b]
  else if b = 32 then ['+']
  else ['%', upperHexDigit (b / 16), upperHexDigit (b % 16)]

/-- Modelled from the Go standard library collaborator `net/url.QueryEscape`. -/
def queryEscape (s : String) : String :=
  String.mk ((utf8Bytes s).flatMap escapeQueryByte)

/-- Whether a character is a hexadecimal digit. -/
def isHexChar (c : Char) : Bool :=
  (48 ≤ c.toNat && c.toNat ≤ 57) || (65 ≤ c.toNat && c.toNat ≤ 70) ||
  (97 ≤ c.toNat && c.toNat ≤ 102)

/-- Every `%` in the character list is followed by two hexadecimal digits. -/
def validEscapes : List Char → Bool
  | [] => true
  | c :: rest =>
    if c = '%' then
      match rest with
      | c1 :: c2 :: rest2 => isHexChar c1 && isHexChar c2 && validEscapes rest2
      | _ => false
    else validEscapes rest

/-- Modelled from the Go standard library collaborator `net/url.Parse` at its
interface: `Parse` fails exactly when the string contains a `%` not followed
by two hexadecimal digits (the only failure mode exercised by this client's
inputs); other failure modes of `Parse` are not reachable here. -/
def urlParseOk (s : String) : Bool := validEscapes s.data

/-- Modelled from the Go standard library collaborator
`URL.ResolveReference` at its interface, for an absolute base URL and a
path-absolute reference: the resolved URL is the base followed by the
reference path. -/
def resolveReference (base ref : String) : String := base ++ ref

/-- The errors this client can construct.  `fmt.Errorf` is an external
collaborator; each constructor records which `fmt.Errorf` call site produced
the error together with the data interpolated into its format string. -/
inductive GoError
  | unknownCommandType (ct : Nat)
  | urlParseError (raw : String)
  | remote (msg : IrminString)
  | cloneMoreThanOne (command : String) (name : String)
  | readMoreThanOne (path : String)
  | invalidKey (path : String)
  | notUtf8 (path : String)
  | noHash (command : String) (path : String)
  | resultMessage (msg : IrminString)
  | removeMoreThanOne (path : String)
  deriving DecidableEq, Repr

/-- Go constant COMMAND_PLAIN (SubCommandType is an integer type, so unknown
values are representable; MakeCallUrl's default branch rejects them). -/
def COMMAND_PLAIN : Nat := 0

/-- Go constant COMMAND_TREE. -/
def COMMAND_TREE : Nat := 1

/-- Go constant COMMAND_TAG. -/
def COMMAND_TAG : Nat := 2

/-- Go struct RestConn: base URI, tree selector, task owner.  The base URI is
modelled as its string form. -/
structure RestConn where
  base_uri : String
  tree : String
  taskowner : String
  deriving DecidableEq, Repr

/-- Go func Create: fresh connection with the given base URI and task owner
(tree is the zero value, the empty string). -/
def Create (uri : String) (taskowner : String) : RestConn :=
  { base_uri := uri, tree := "", taskowner := taskowner }

/-- Go method FromTree, modelled by the pair
(receiver after the call, returned connection): the source copies `*rest`
into a fresh value, sets `tree` on the copy and returns its address, so the
receiver is left untouched. -/
def FromTree (rest : RestConn) (tree : String) : RestConn × RestConn :=
  (rest, { rest with tree := tree })

/-- Go method SetTaskOwner, modelled by the state of the receiver after the
call: the source assigns through the pointer receiver
(`rest.taskowner = owner`) and returns nothing, an in-place mutation. -/
def SetTaskOwner (rest : RestConn) (owner : String) : RestConn :=
  { rest with taskowner := owner }

/-- Go method MakeCallUrl (src/irmin/http.go lines 137-173).  The path
argument is represented by the string `path.URL().String()` produces for it
(the IrminPath type lives outside src/).  The TREE/TAG format string
`"/%s/%s/%s/%s%s"` contains five verbs but is given only four operands;
per the documented behaviour of Go's `fmt` package the missing operand
prints as the literal text `%!s(MISSING)`. -/
def MakeCallUrl (rest : RestConn) (ct : Nat) (command : String) (p : String) :
    Except GoError String :=
  let parent : Option (String × String) :=
    if ct = COMMAND_PLAIN then some ("", "")
    else if ct = COMMAND_TREE then
      if rest.tree ≠ "" then some ("tree", rest.tree) else some ("", "")
    else if ct = COMMAND_TAG then some ("tag", "")
    else none
  match parent with
  | none => .error (.unknownCommandType ct)
  | some (parentCommand, parentParam) =>
    let raw :=
      if parentCommand = "" then
        "/" ++ queryEscape command ++ p
      else
        "/" ++ queryEscape parentCommand ++ "/" ++ queryEscape parentParam ++
          "/" ++ queryEscape command ++ "/" ++ p ++ "%!s(MISSING)"
    if urlParseOk raw then .ok (resolveReference rest.base_uri raw)
    else .error (.urlParseError raw)

/-- Go struct StringReply: `{Result IrminString; Error IrminString;
Version IrminString}`.  CloneReply, UpdateReply, RemoveReply and
RemoveRecReply are declared as this shape. -/
structure StringReply where
  result : IrminString
  error : IrminString
  version : IrminString
  deriving DecidableEq, Repr

/-- Go type CloneReply = StringReply. -/
abbrev CloneReply := StringReply

/-- Go type UpdateReply = StringReply. -/
abbrev UpdateReply := StringReply

/-- Go type RemoveReply = StringReply. -/
abbrev RemoveReply := StringReply

/-- Go struct StringArrayReply: `{Result []IrminString; Error IrminString;
Version IrminString}`. -/
structure StringArrayReply where
  result : List IrminString
  error : IrminString
  version : IrminString
  deriving DecidableEq, Repr

/-- Go type ReadReply = StringArrayReply. -/
abbrev ReadReply := StringArrayReply

/-- Reply interpretation of Go method Clone (src/irmin/http.go lines
461-486), given the force flag, the clone name and the decoded CloneReply.
The transport and the prior ParseEncodedPath step are external; this is the
code run once `runCommand` has filled `data`.  Note that `data.Result` is a
byte slice, so `len(data.Result)` is its byte length, and
`data.Result.String()` comparisons are byte comparisons with the literal. -/
def Clone (force : Bool) (name : String) (data : CloneReply) : Except GoError Unit :=
  if data.error ≠ [] then .error (.remote data.error)
  else if data.result.length > 1 then
    .error (.cloneMoreThanOne (if force then "clone-force" else "clone") name)
  else if data.result ≠ utf8Bytes "ok" ∨ (data.result = [] ∧ force = true) then
    .error (.resultMessage data.result)
  else .ok ()

/-- Reply interpretation of Go method Read (src/irmin/http.go lines
341-358), given the rendering of the path (`path.String()`) and the decoded
ReadReply. -/
def Read (pathStr : String) (data : ReadReply) : Except GoError IrminString :=
  if data.error ≠ [] then .error (.remote data.error)
  else if data.result.length > 1 then .error (.readMoreThanOne pathStr)
  else
    match data.result with
    | [r] => .ok r
    | _ => .error (.invalidKey pathStr)

/-- Reply interpretation of Go method ReadString (src/irmin/http.go lines
361-371): Read, then a UTF-8 validity check.  The returned Go string
`string(res)` carries exactly the bytes of `res`, so the success value is
the same byte list. -/
def ReadString (pathStr : String) (data : ReadReply) : Except GoError IrminString :=
  match Read pathStr data with
  | .error e => .error e
  | .ok res =>
    if utf8Valid res then .ok res
    else .error (.notUtf8 pathStr)

/-- Reply interpretation of Go method Update (src/irmin/http.go lines
374-398): remote error wins, then an empty result hash is itself an error,
else the hash is returned. -/
def Update (pathStr : String) (data : UpdateReply) : Except GoError IrminString :=
  if data.error ≠ [] then .error (.remote data.error)
  else if data.result = [] then .error (.noHash "update" pathStr)
  else .ok data.result

/-- Reply interpretation of Go method CompareAndSet (src/irmin/http.go lines
489-515); identical envelope policy to Update with its own error text. -/
def CompareAndSet (pathStr : String) (data : UpdateReply) : Except GoError IrminString :=
  if data.error ≠ [] then .error (.remote data.error)
  else if data.result = [] then .error (.noHash "compare-and-set" pathStr)
  else .ok data.result

/-- Reply interpretation of Go method Remove (src/irmin/http.go lines
401-416): remote error wins; a result of byte length above one is an error;
otherwise success. -/
def Remove (pathStr : String) (data : RemoveReply) : Except GoError Unit :=
  if data.error ≠ [] then .error (.remote data.error)
  else if data.result.length > 1 then .error (.removeMoreThanOne pathStr)
  else .ok ()

/-- A JSON value, used to model the elements of a streamed JSON array
response after tokenisation by Go's `encoding/json` decoder. -/
inductive Json
  | null
  | jbool (b : Bool)
  | jnum (n : Int)
  | jstr (s : String)
  | jarr (elems : List Json)
  | jobj (fields : List (String × Json))

/-- Field lookup in a decoded JSON object, later occurrence winning, as
Go's `encoding/json` does for duplicate keys.  Go matches struct field
names case-insensitively; every key this protocol uses is lower case, so
exact lookup on the lower-case key is the behaviour exercised. -/
def lookupField (fs : List (String × Json)) (k : String) : Option Json :=
  match fs with
  | [] => none
  | (k2, v) :: rest =>
    if k2 = k then
      match lookupField rest k with
      | some v2 => some v2
      | none => some v
    else lookupField rest k

/-- Modelled from the spec: the custom `UnmarshalJSON` of the repository's
IrminString type (its file is not under src/).  Per the spec's data model an
opaque byte value decodes from either a JSON string (giving its UTF-8
bytes) or a JSON array of raw byte values; anything else is a decode
error. -/
def irminStringUnmarshal : Json → Option IrminString
  | .jstr s => some (utf8Bytes s)
  | .jarr xs =>
    xs.mapM fun j =>
      match j with
      | .jnum n => if 0 ≤ n ∧ n < 256 then some n.toNat else none
      | _ => none
  | _ => none

/-- Decoding one JSON value into Go's
`var stream_token struct { Stream IrminString }`.  `prev` is the current
contents of the (reused) variable: Go's Unmarshal leaves a struct field
unchanged when the object has no matching key, and leaves the whole struct
unchanged on JSON null; a non-object non-null value is a decode error. -/
def decodeStreamToken (prev : IrminString) : Json → Option IrminString
  | .null => some prev
  | .jobj fs =>
    match lookupField fs "stream" with
    | none => some prev
    | some v => irminStringUnmarshal v
  | _ => none

/-- Decoding one JSON value into Go's
`var version struct { Version IrminString }` (zero-valued before use). -/
def decodeVersionToken : Json → Option IrminString
  | .null => some []
  | .jobj fs =>
    match lookupField fs "version" with
    | none => some []
    | some v => irminStringUnmarshal v
  | _ => none

/-- Go struct StreamReply: `{Error IrminString; Result json.RawMessage}`.
`Result` keeps the raw JSON of the `result` field; it has length zero
exactly when the field is absent, which the model captures with `none`. -/
structure StreamReply where
  error : IrminString
  result : Option Json

/-- Decoding one JSON value into a freshly allocated StreamReply
(`s := new(StreamReply)`, so both fields start from their zero values). -/
def decodeStreamReply : Json → Option StreamReply
  | .null => some { error := [], result := none }
  | .jobj fs =>
    let e : Option IrminString :=
      match lookupField fs "error" with
      | none => some []
      | some v => irminStringUnmarshal v
    match e with
    | none => none
    | some err => some { error := err, result := lookupField fs "result" }
  | _ => none

/-- One element of the response array as seen by the incremental decoder:
either a well-formed JSON value, or malformed input (malformed JSON text,
or the body cut off in the middle of an element), on which every
`Decode` call fails. -/
inductive RawElem
  | good (j : Json)
  | malformed

/-- A streamed HTTP response body as the decoder sees it: whether it opens
with `[`, the array elements, and whether the closing `]` is present
(`properEnd = false` models a body that ends abruptly after its last
complete element). -/
structure StreamBody where
  openBracket : Bool
  elems : List RawElem
  properEnd : Bool

/-- The decode loop of Go method runStreamCommand (src/irmin/http.go lines
256-277), returning the values sent on the channel before it is closed.
`tok` is the current contents of the reused `stream_token` variable (it
still holds "start" when the loop begins).  Faithful details: when an
element's `Result` is empty the code calls `dec.Decode(&stream_token)`,
which consumes the NEXT array element (or fails on `]`/end of input, both
of which just end the goroutine); when that next element decodes to a token
other than "end", the empty-result element itself is sent on the channel.
`dec.More()` returns false both at `]` and at end of input, and `Decode`
fails at both, so the loop cannot observe whether the array was properly
terminated; `StreamBody.properEnd` therefore does not appear below. -/
def streamLoop (tok : IrminString) : List RawElem → List StreamReply
  | [] => []
  | .malformed :: _ => []
  | .good j :: rest =>
    match decodeStreamReply j with
    | none => []
    | some s =>
      match s.result with
      | some _ => s :: streamLoop tok rest
      | none =>
        match rest with
        | [] => []
        | .malformed :: _ => []
        | .good j2 :: rest2 =>
          match decodeStreamToken tok j2 with
          | none => []
          | some tok2 =>
            if tok2 = utf8Bytes "end" then []
            else s :: streamLoop tok2 rest2

/-- What Go method runStreamCommand returns to its caller:
a non-nil error with a nil channel, a nil channel with a nil error, or a
channel that delivers the given replies and is then closed.  The channel is
the only way the decode goroutine communicates with the consumer: the `err`
assignments inside the goroutine write to a variable the caller never sees
again. -/
inductive StreamCallResult
  | goErr
  | nilChan
  | frames (fs : List StreamReply)

/-- Go method runStreamCommand (src/irmin/http.go lines 205-278), URL
construction and transport externalised, applied to a response body.
Control flow of the source: a failure reading the `[` token, decoding the
start token, or decoding the version token returns a non-nil error; a start
token that decodes to a value other than "start" returns with the zero
channel and a nil error; otherwise the decode goroutine is started. -/
def runStreamCommand (body : StreamBody) : StreamCallResult :=
  if body.openBracket = false then .goErr
  else
    match body.elems with
    | [] => .goErr
    | .malformed :: _ => .goErr
    | .good j :: rest =>
      match decodeStreamToken [] j with
      | none => .goErr
      | some tok =>
        if tok ≠ utf8Bytes "start" then .nilChan
        else
          match rest with
          | [] => .goErr
          | .malformed :: _ => .goErr
          | .good j2 :: rest2 =>
            match decodeVersionToken j2 with
            | none => .goErr
            | some _ => .frames (streamLoop tok rest2)

/-- What Go method Iter (src/irmin/http.go lines 437-458) returns:
`runStreamCommand` failure or nil channel propagate as
(nil, err) respectively (nil, nil); otherwise the frames are forwarded.
The per-frame unmarshalling of `m.Result` into an IrminPath (which panics
on failure, see the TODO in the source) happens downstream of the frame
sequence and is not part of this model. -/
inductive IterResult
  | goErr
  | nilNoErr
  | seq (fs : List StreamReply)

/-- Go method Iter, at the frame level. -/
def Iter (body : StreamBody) : IterResult :=
  match runStreamCommand body with
  | .goErr => .goErr
  | .nilChan => .nilNoErr
  | .frames fs => .seq fs

/-- Go struct Task (json tags date, uid, owner, messages). -/
structure Task where
  date : String
  uid : String
  owner : IrminString
  messages : List IrminString
  deriving DecidableEq, Repr

/-- Go struct PostRequest: a Task under key task, and raw params JSON under
key params with omitempty (absent when the RawMessage is nil).  The raw
JSON is carried as its text. -/
structure PostRequest where
  task : Task
  data : Option String
  deriving DecidableEq, Repr

/-- Left brace as text. -/
def lbr : String := "\x7b"

/-- Right brace as text. -/
def rbr : String := "\x7d"

/-- JSON escaping of one byte of string content: quote and backslash get a
backslash, the common control characters use their short escapes, other
control bytes use a \u00XX escape, everything else is emitted verbatim. -/
def jsonEscapeByte (b : Nat) : String :=
  if b = 34 then "\\\""
  else if b = 92 then "\\\\"
  else if b = 10 then "\\n"
  else if b = 13 then "\\r"
  else if b = 9 then "\\t"
  else if b < 32 then
    String.mk ['\\', 'u', '0', '0', upperHexDigit (b / 16), upperHexDigit (b % 16)]
  else String.singleton (Char.ofNat b)

/-- JSON string literal for a list of bytes (emitted byte by byte; UTF-8
sequences pass through verbatim). -/
def jsonQuoteBytes (bs : List Nat) : String :=
  "\"" ++ String.join (bs.map jsonEscapeByte) ++ "\""

/-- JSON string literal for a Go string. -/
def jsonQuote (s : String) : String := jsonQuoteBytes (utf8Bytes s)

/-- Comma-separated concatenation. -/
def joinComma : List String → String
  | [] => ""
  | [x] => x
  | x :: rest => x ++ "," ++ joinComma rest

/-- Modelled from the spec: the custom `MarshalJSON` of the repository's
IrminString type (its file is not under src/).  Per the spec's data model an
opaque byte value is encoded as a JSON string when its bytes are valid
UTF-8, and as a JSON array of raw byte values otherwise. -/
def irminStringMarshalJSON (bs : IrminString) : String :=
  if utf8Valid bs then jsonQuoteBytes bs
  else "[" ++ joinComma (bs.map (fun b => toString b)) ++ "]"

/-- Serialisation of a Task by Go's `encoding/json`, fields in declaration
order with their tag names. -/
def marshalTask (t : Task) : String :=
  lbr ++ "\"date\":" ++ jsonQuote t.date ++
    ",\"uid\":" ++ jsonQuote t.uid ++
    ",\"owner\":" ++ irminStringMarshalJSON t.owner ++
    ",\"messages\":[" ++ joinComma (t.messages.map irminStringMarshalJSON) ++ "]" ++ rbr

/-- Serialisation of a PostRequest by Go's `encoding/json`: the task, then
the raw params JSON unless absent (omitempty). -/
def marshalPostRequest (p : PostRequest) : String :=
  lbr ++ "\"task\":" ++ marshalTask p.task ++
    (match p.data with
     | none => ""
     | some d => ",\"params\":" ++ d) ++ rbr

/-- An externally visible effect of one client call: a write to the
process's standard output, an HTTP GET, or an HTTP POST with a content type
and a body. -/
inductive HttpEvent
  | stdout (s : String)
  | httpGet (uri : String)
  | httpPost (uri : String) (contentType : String) (requestBody : String)
  deriving DecidableEq, Repr

/-- Effect trace of Go method runCommand (src/irmin/http.go lines 176-202):
after a successful URL build, a nil body issues a GET; a non-nil body is
serialised, printed whole to standard output by
`fmt.Printf("body %s\n", j)`, and then POSTed with content type
application/json.  A URL build failure produces no effect. -/
def runCommandTrace (rest : RestConn) (ct : Nat) (command : String) (p : String)
    (post : Option PostRequest) : List HttpEvent :=
  match MakeCallUrl rest ct command p with
  | .error _ => []
  | .ok uri =>
    match post with
    | none => [.httpGet uri]
    | some b =>
      [.stdout ("body " ++ marshalPostRequest b ++ "\n"),
       .httpPost uri "application/json" (marshalPostRequest b)]

/-- Effect trace of Go method runStreamCommand (src/irmin/http.go lines
218-231): same GET/POST selection as runCommand but with no write to
standard output. -/
def runStreamCommandTrace (rest : RestConn) (ct : Nat) (command : String) (p : String)
    (post : Option PostRequest) : List HttpEvent :=
  match MakeCallUrl rest ct command p with
  | .error _ => []
  | .ok uri =>
    match post with
    | none => [.httpGet uri]
    | some b => [.httpPost uri "application/json" (marshalPostRequest b)]

/-- Effect trace of Go method Update: body.Data is the marshalled contents,
body.Task the given task, command "update". -/
def UpdateTrace (rest : RestConn) (t : Task) (p : String) (contents : IrminString) :
    List HttpEvent :=
  runCommandTrace rest COMMAND_TREE "update" p
    (some { task := t, data := some (irminStringMarshalJSON contents) })

/-- Effect trace of Go method Remove: body is `PostRequest{t, nil}`. -/
def RemoveTrace (rest : RestConn) (t : Task) (p : String) : List HttpEvent :=
  runCommandTrace rest COMMAND_TREE "remove" p (some { task := t, data := none })

/-- Effect trace of Go method RemoveRec: body is `PostRequest{t, nil}`,
command "remove-rec". -/
def RemoveRecTrace (rest : RestConn) (t : Task) (p : String) : List HttpEvent :=
  runCommandTrace rest COMMAND_TREE "remove-rec" p (some { task := t, data := none })

/-- Effect trace of Go method CompareAndSet: body.Data is the marshalled
pair of singleton arrays `[[old],[new]]`. -/
def CompareAndSetTrace (rest : RestConn) (t : Task) (p : String)
    (oldcontents contents : IrminString) : List HttpEvent :=
  runCommandTrace rest COMMAND_TREE "compare-and-set" p
    (some { task := t,
            data := some ("[[" ++ irminStringMarshalJSON oldcontents ++ "],[" ++
                          irminStringMarshalJSON contents ++ "]]") })

/-- Effect trace of Go method Read: a GET, no body. -/
def ReadTrace (rest : RestConn) (p : String) : List HttpEvent :=
  runCommandTrace rest COMMAND_TREE "read" p none

/-- Effect trace of Go method List: a GET, no body. -/
def ListTrace (rest : RestConn) (p : String) : List HttpEvent :=
  runCommandTrace rest COMMAND_TREE "list" p none

/-- Effect trace of Go method Clone: a GET, no body; the command name
depends on the force flag. -/
def CloneTrace (rest : RestConn) (force : Bool) (p : String) : List HttpEvent :=
  runCommandTrace rest COMMAND_TREE (if force then "clone-force" else "clone") p none

/-- Effect trace of Go method Iter: a streamed GET on command "iter" with
an empty path and no body. -/
def IterTrace (rest : RestConn) : List HttpEvent :=
  runStreamCommandTrace rest COMMAND_TREE "iter" "" none

/-- Whether a trace contains a write to standard output. -/
def hasStdout : List HttpEvent → Bool
  | [] => false
  | .stdout _ :: _ => true
  | _ :: rest => hasStdout rest

/-- C1: the claim fails on the code.  `data.Result` is a byte slice, so a
reply whose result is the two-byte string "ok" trips the
`len(data.Result) > 1` guard and Clone fails with a
"returned more than one result" error; an empty result with force=true
fails too, because the success condition reads
`(result != "ok") || (result == "" && force)` with `||` where the comment
and spec require acceptance; in fact no error-free reply at all can make
Clone succeed, since a result of byte length at most one can never equal
"ok". -/
theorem clone_reply_bug :
    Clone false "x" { result := utf8Bytes "ok", error := [], version := [] }
      = .error (.cloneMoreThanOne "clone" "x")
  ∧ Clone true "x" { result := [], error := [], version := [] }
      = .error (.resultMessage [])
  ∧ Clone false "x" { result := [], error := [], version := [] }
      = .error (.resultMessage [])
  ∧ ∀ (force : Bool) (name : String) (data : CloneReply),
      Clone force name data ≠ .ok () := by
  refine ⟨rfl, rfl, rfl, ?_⟩
  intro force name data
  unfold Clone
  by_cases he : data.error ≠ []
  · rw [if_pos he]
    exact fun h => Except.noConfusion h
  · rw [if_neg he]
    by_cases hl : data.result.length > 1
    · rw [if_pos hl]
      exact fun h => Except.noConfusion h
    · rw [if_neg hl]
      by_cases hr : data.result = utf8Bytes "ok"
      · exfalso
        rw [hr] at hl
        exact hl (by decide)
      · rw [if_pos (Or.inl hr)]
        exact fun h => Except.noConfusion h

/-- C2: the claim fails on the code.  With a non-empty tree selector,
MakeCallUrl formats the suffix with the five-verb format string
`"/%s/%s/%s/%s%s"` but only four operands, so the suffix ends in the
literal `%!s(MISSING)`, which `url.Parse` rejects as an invalid percent
escape: the builder returns an error instead of the claimed URL.  With an
empty tree selector the plain two-verb format is used and the build
succeeds. -/
theorem tree_url_bug :
    MakeCallUrl { base_uri := "http://127.0.0.1:8080", tree := "foo", taskowner := "t" }
        COMMAND_TREE "read" ""
      = .error (.urlParseError "/tree/foo/read/%!s(MISSING)")
  ∧ MakeCallUrl { base_uri := "http://127.0.0.1:8080", tree := "", taskowner := "t" }
        COMMAND_TREE "read" ""
      = .ok "http://127.0.0.1:8080/read" := by
  exact ⟨rfl, rfl⟩

/-- C8 counterexample: SetTaskOwner assigns through its pointer receiver,
so the call changes the task-owner field of the existing Connection rather
than producing a new value; the receiver observed after the call differs
from the original. -/
theorem set_task_owner_mutates :
    (SetTaskOwner (Create "http://127.0.0.1:8080" "alice") "bob").taskowner
      ≠ (Create "http://127.0.0.1:8080" "alice").taskowner := by
  decide

/-- C8 (amended): FromTree is copy-on-write — it leaves every field of the
receiver unchanged and returns a new Connection differing only in the tree
selector; SetTaskOwner, by contrast, mutates the receiver's task owner in
place (leaving its base endpoint and tree selector unchanged) and returns
no new value. -/
theorem connection_change_policy (c : RestConn) (t o : String) :
    (FromTree c t).1 = c
  ∧ (FromTree c t).2.tree = t
  ∧ (FromTree c t).2.base_uri = c.base_uri
  ∧ (FromTree c t).2.taskowner = c.taskowner
  ∧ (SetTaskOwner c o).taskowner = o
  ∧ (SetTaskOwner c o).base_uri = c.base_uri
  ∧ (SetTaskOwner c o).tree = c.tree :=
  ⟨rfl, rfl, rfl, rfl, rfl, rfl, rfl⟩

/-- C3 counterexample: a response whose first array element is the
well-formed token `(stream = "nope")` — a value other than "start" — makes
runStreamCommand return the nil channel together with a NIL error, not the
non-nil protocol error the claim requires. -/
theorem stream_start_token_counterexample :
    runStreamCommand
        { openBracket := true,
          elems := [.good (.jobj [("stream", .jstr "nope")])],
          properEnd := true }
      = .nilChan
  ∧ StreamCallResult.nilChan ≠ StreamCallResult.goErr :=
  ⟨rfl, fun h => StreamCallResult.noConfusion h⟩

/-- C3 (amended): when the streamed response does not begin with a
well-formed (stream = "start") token, the sequence is never started, but the
synchronous result depends on how the token fails: a missing element or a
malformed one (any element on which decoding fails) yields a non-nil error,
while an element that decodes to a token with a value other than "start"
yields a nil sequence WITH a nil error, which Iter passes on as
(nil, nil). -/
theorem stream_start_token_policy (b : StreamBody) (hb : b.openBracket = true) :
    (∀ (j : Json) (rest : List RawElem) (tok : IrminString),
        b.elems = .good j :: rest → decodeStreamToken [] j = some tok →
        tok ≠ utf8Bytes "start" →
        runStreamCommand b = .nilChan ∧ Iter b = .nilNoErr)
  ∧ (∀ (j : Json) (rest : List RawElem),
        b.elems = .good j :: rest → decodeStreamToken [] j = none →
        runStreamCommand b = .goErr ∧ Iter b = .goErr)
  ∧ (∀ rest : List RawElem, b.elems = .malformed :: rest → runStreamCommand b = .goErr)
  ∧ (b.elems = [] → runStreamCommand b = .goErr) := by
  refine ⟨?_, ?_, ?_, ?_⟩
  · intro j rest tok he hdec hne
    have h1 : runStreamCommand b = .nilChan := by
      simp [runStreamCommand, hb, he, hdec, hne]
    exact ⟨h1, by simp [Iter, h1]⟩
  · intro j rest he hdec
    have h1 : runStreamCommand b = .goErr := by
      simp [runStreamCommand, hb, he, hdec]
    exact ⟨h1, by simp [Iter, h1]⟩
  · intro rest he
    simp [runStreamCommand, hb, he]
  · intro he
    simp [runStreamCommand, hb, he]

/-- C3 witness: the policy applied to the concrete response beginning with
the token `(stream = "nope")`. -/
theorem stream_start_token_policy_witness :
    (StreamBody.mk true [.good (.jobj [("stream", .jstr "nope")])] true).openBracket = true
  ∧ runStreamCommand (StreamBody.mk true [.good (.jobj [("stream", .jstr "nope")])] true)
      = .nilChan
  ∧ Iter (StreamBody.mk true [.good (.jobj [("stream", .jstr "nope")])] true)
      = .nilNoErr := by
  refine ⟨rfl, ?_, ?_⟩
  · exact ((stream_start_token_policy _ rfl).1 (.jobj [("stream", .jstr "nope")]) []
      (utf8Bytes "nope") rfl rfl (by decide)).1
  · exact ((stream_start_token_policy _ rfl).1 (.jobj [("stream", .jstr "nope")]) []
      (utf8Bytes "nope") rfl rfl (by decide)).2

/-- C4: the claim fails on the code.  For the response
`[ (stream="start"), (version="v1"), (error="boom"), (result="a"),
(stream="end") ]` the element with empty result is NOT itself decoded as a
control token: the decoder consumes the FOLLOWING element `(result="a")` as
the token, finds it is not "end", and then publishes the empty-result
element downstream as a data frame, silently swallowing the real data
frame; no mid-stream error is reported to the consumer (the channel simply
closes after the published frame). -/
theorem empty_result_element_bug :
    runStreamCommand
        { openBracket := true,
          elems := [.good (.jobj [("stream", .jstr "start")]),
                    .good (.jobj [("version", .jstr "v1")]),
                    .good (.jobj [("error", .jstr "boom")]),
                    .good (.jobj [("result", .jstr "a")]),
                    .good (.jobj [("stream", .jstr "end")])],
          properEnd := true }
      = .frames [{ error := utf8Bytes "boom", result := none }] := by
  rfl

/-- C5: the claim fails on the code.  A streamed response that ends
abruptly after one frame, with no (stream="end") terminator, produces
exactly the same consumer-visible result as the properly terminated
response — the frame followed by a normal channel close — and a mid-stream
decode failure (a malformed fourth element) does too: the decode loop's
error assignments go to a variable the consumer never sees, so truncation
is silent. -/
theorem stream_truncation_bug :
    runStreamCommand
        { openBracket := true,
          elems := [.good (.jobj [("stream", .jstr "start")]),
                    .good (.jobj [("version", .jstr "v1")]),
                    .good (.jobj [("result", .jstr "a")])],
          properEnd := false }
      = .frames [{ error := [], result := some (.jstr "a") }]
  ∧ runStreamCommand
        { openBracket := true,
          elems := [.good (.jobj [("stream", .jstr "start")]),
                    .good (.jobj [("version", .jstr "v1")]),
                    .good (.jobj [("result", .jstr "a")]),
                    .good (.jobj [("stream", .jstr "end")])],
          properEnd := true }
      = .frames [{ error := [], result := some (.jstr "a") }]
  ∧ runStreamCommand
        { openBracket := true,
          elems := [.good (.jobj [("stream", .jstr "start")]),
                    .good (.jobj [("version", .jstr "v1")]),
                    .good (.jobj [("result", .jstr "a")]),
                    .malformed],
          properEnd := true }
      = .frames [{ error := [], result := some (.jstr "a") }] :=
  ⟨rfl, rfl, rfl⟩

/-- C6: on a read reply carrying no remote error, an empty result array is
the "no such key" failure (the `invalid key` error), two or more entries
are the ambiguous-read failure (`returned more than one result`), and
exactly one entry is returned as the value; ReadString returns the same
bytes as a string exactly when they are valid UTF-8 and the encoding error
otherwise. -/
theorem read_reply_policy (p : String) (v r : IrminString) (rs : List IrminString)
    (h2 : 2 ≤ rs.length) :
    Read p { result := [], error := [], version := v } = .error (.invalidKey p)
  ∧ Read p { result := rs, error := [], version := v } = .error (.readMoreThanOne p)
  ∧ Read p { result := [r], error := [], version := v } = .ok r
  ∧ ReadString p { result := [r], error := [], version := v }
      = (if utf8Valid r then .ok r else .error (.notUtf8 p)) := by
  refine ⟨rfl, ?_, rfl, rfl⟩
  simp [Read, show rs.length > 1 by omega]

/-- C6 witness: the policy at the spec's own vectors — empty result, a
two-entry result, and the single result 0x41 0x42, whose string read
returns "AB"'s bytes. -/
theorem read_reply_policy_witness :
    2 ≤ ([[], []] : List IrminString).length
  ∧ (Read "k" { result := [], error := [], version := [] } = .error (.invalidKey "k")
  ∧ Read "k" { result := [[], []], error := [], version := [] }
      = .error (.readMoreThanOne "k")
  ∧ Read "k" { result := [[65, 66]], error := [], version := [] } = .ok [65, 66]
  ∧ ReadString "k" { result := [[65, 66]], error := [], version := [] }
      = (if utf8Valid [65, 66] then .ok [65, 66] else .error (.notUtf8 "k"))) :=
  ⟨by decide, read_reply_policy "k" [] [65, 66] [[], []] (by decide)⟩

/-- C7: on an update or compare-and-set reply that decodes with an empty
error field, an empty result hash is itself a failure (the
"seemed to succeed, but didn't return a hash" error), and a non-empty hash
is returned as the success value. -/
theorem update_hash_policy (p : String) (v r : IrminString) (hr : r ≠ []) :
    Update p { result := [], error := [], version := v }
      = .error (.noHash "update" p)
  ∧ CompareAndSet p { result := [], error := [], version := v }
      = .error (.noHash "compare-and-set" p)
  ∧ Update p { result := r, error := [], version := v } = .ok r
  ∧ CompareAndSet p { result := r, error := [], version := v } = .ok r := by
  refine ⟨rfl, rfl, ?_, ?_⟩
  · unfold Update
    rw [if_neg (by simp), if_neg hr]
  · unfold CompareAndSet
    rw [if_neg (by simp), if_neg hr]

/-- C7 witness: the policy at the empty hash and at the one-byte hash
0x68. -/
theorem update_hash_policy_witness :
    ([104] : IrminString) ≠ []
  ∧ (Update "k" { result := [], error := [], version := [] }
      = .error (.noHash "update" "k")
  ∧ CompareAndSet "k" { result := [], error := [], version := [] }
      = .error (.noHash "compare-and-set" "k")
  ∧ Update "k" { result := [104], error := [], version := [] } = .ok [104]
  ∧ CompareAndSet "k" { result := [104], error := [], version := [] } = .ok [104]) :=
  ⟨by decide, update_hash_policy "k" [] [104] (by decide)⟩

/-- C10: whenever the URL builds, a non-streaming call with a request body
first writes the entire serialised body — the line `body <json>` with the
task and params included — to standard output and then POSTs that same
body; a call without a body issues a GET with no output, and the streamed
executor never writes to standard output; Update, Remove, RemoveRec and
CompareAndSet are exactly the calls that attach a body, while Read, List,
Clone and Iter pass none. -/
theorem post_body_printed (rest : RestConn) (ct : Nat) (cmd p uri : String)
    (b : PostRequest) (t : Task) (contents oldcontents : IrminString)
    (hu : MakeCallUrl rest ct cmd p = .ok uri) :
    runCommandTrace rest ct cmd p (some b)
      = [.stdout ("body " ++ marshalPostRequest b ++ "\n"),
         .httpPost uri "application/json" (marshalPostRequest b)]
  ∧ runCommandTrace rest ct cmd p none = [.httpGet uri]
  ∧ runStreamCommandTrace rest ct cmd p (some b)
      = [.httpPost uri "application/json" (marshalPostRequest b)]
  ∧ hasStdout (runStreamCommandTrace rest ct cmd p (some b)) = false
  ∧ UpdateTrace rest t p contents
      = runCommandTrace rest COMMAND_TREE "update" p
          (some { task := t, data := some (irminStringMarshalJSON contents) })
  ∧ RemoveTrace rest t p
      = runCommandTrace rest COMMAND_TREE "remove" p (some { task := t, data := none })
  ∧ RemoveRecTrace rest t p
      = runCommandTrace rest COMMAND_TREE "remove-rec" p
          (some { task := t, data := none })
  ∧ CompareAndSetTrace rest t p oldcontents contents
      = runCommandTrace rest COMMAND_TREE "compare-and-set" p
          (some { task := t,
                  data := some ("[[" ++ irminStringMarshalJSON oldcontents ++ "],[" ++
                                irminStringMarshalJSON contents ++ "]]") })
  ∧ hasStdout (ReadTrace rest p) = false
  ∧ hasStdout (ListTrace rest p) = false
  ∧ hasStdout (CloneTrace rest false p) = false
  ∧ hasStdout (IterTrace rest) = false := by
  refine ⟨?_, ?_, ?_, ?_, rfl, rfl, rfl, rfl, ?_, ?_, ?_, ?_⟩
  · simp [runCommandTrace, hu]
  · simp [runCommandTrace, hu]
  · simp [runStreamCommandTrace, hu]
  · simp [runStreamCommandTrace, hu, hasStdout]
  · cases h : MakeCallUrl rest COMMAND_TREE "read" p <;>
      simp [ReadTrace, runCommandTrace, h, hasStdout]
  · cases h : MakeCallUrl rest COMMAND_TREE "list" p <;>
      simp [ListTrace, runCommandTrace, h, hasStdout]
  · cases h : MakeCallUrl rest COMMAND_TREE "clone" p <;>
      simp [CloneTrace, runCommandTrace, h, hasStdout]
  · cases h : MakeCallUrl rest COMMAND_TREE "iter" "" <;>
      simp [IterTrace, runStreamCommandTrace, h, hasStdout]

/-- C10 witness: the trace shapes at a concrete connection (empty tree
selector, so the URL builds), a concrete task and empty contents. -/
theorem post_body_printed_witness :
    MakeCallUrl { base_uri := "http://127.0.0.1:8080", tree := "", taskowner := "o" }
        COMMAND_TREE "update" "" = .ok "http://127.0.0.1:8080/update"
  ∧ (runCommandTrace { base_uri := "http://127.0.0.1:8080", tree := "", taskowner := "o" }
        COMMAND_TREE "update" "" (some { task := Task.mk "1" "0" [] [], data := none })
      = [.stdout ("body " ++
            marshalPostRequest { task := Task.mk "1" "0" [] [], data := none } ++ "\n"),
         .httpPost "http://127.0.0.1:8080/update" "application/json"
            (marshalPostRequest { task := Task.mk "1" "0" [] [], data := none })]
  ∧ runCommandTrace { base_uri := "http://127.0.0.1:8080", tree := "", taskowner := "o" }
        COMMAND_TREE "update" "" none = [.httpGet "http://127.0.0.1:8080/update"]
  ∧ runStreamCommandTrace
        { base_uri := "http://127.0.0.1:8080", tree := "", taskowner := "o" }
        COMMAND_TREE "update" "" (some { task := Task.mk "1" "0" [] [], data := none })
      = [.httpPost "http://127.0.0.1:8080/update" "application/json"
           (marshalPostRequest { task := Task.mk "1" "0" [] [], data := none })]
  ∧ hasStdout (runStreamCommandTrace
        { base_uri := "http://127.0.0.1:8080", tree := "", taskowner := "o" }
        COMMAND_TREE "update" "" (some { task := Task.mk "1" "0" [] [], data := none }))
      = false
  ∧ UpdateTrace { base_uri := "http://127.0.0.1:8080", tree := "", taskowner := "o" }
        (Task.mk "1" "0" [] []) "" []
      = runCommandTrace { base_uri := "http://127.0.0.1:8080", tree := "", taskowner := "o" }
          COMMAND_TREE "update" ""
          (some { task := Task.mk "1" "0" [] [], data := some (irminStringMarshalJSON []) })
  ∧ RemoveTrace { base_uri := "http://127.0.0.1:8080", tree := "", taskowner := "o" }
        (Task.mk "1" "0" [] []) ""
      = runCommandTrace { base_uri := "http://127.0.0.1:8080", tree := "", taskowner := "o" }
          COMMAND_TREE "remove" ""
          (some { task := Task.mk "1" "0" [] [], data := none })
  ∧ RemoveRecTrace { base_uri := "http://127.0.0.1:8080", tree := "", taskowner := "o" }
        (Task.mk "1" "0" [] []) ""
      = runCommandTrace { base_uri := "http://127.0.0.1:8080", tree := "", taskowner := "o" }
          COMMAND_TREE "remove-rec" ""
          (some { task := Task.mk "1" "0" [] [], data := none })
  ∧ CompareAndSetTrace { base_uri := "http://127.0.0.1:8080", tree := "", taskowner := "o" }
        (Task.mk "1" "0" [] []) "" [] []
      = runCommandTrace { base_uri := "http://127.0.0.1:8080", tree := "", taskowner := "o" }
          COMMAND_TREE "compare-and-set" ""
          (some { task := Task.mk "1" "0" [] [],
                  data := some ("[[" ++ irminStringMarshalJSON [] ++ "],[" ++
                                irminStringMarshalJSON [] ++ "]]") })
  ∧ hasStdout (ReadTrace { base_uri := "http://127.0.0.1:8080", tree := "", taskowner := "o" } "")
      = false
  ∧ hasStdout (ListTrace { base_uri := "http://127.0.0.1:8080", tree := "", taskowner := "o" } "")
      = false
  ∧ hasStdout (CloneTrace { base_uri := "http://127.0.0.1:8080", tree := "", taskowner := "o" }
        false "")
      = false
  ∧ hasStdout (IterTrace { base_uri := "http://127.0.0.1:8080", tree := "", taskowner := "o" })
      = false) :=
  ⟨rfl, post_body_printed
    { base_uri := "http://127.0.0.1:8080", tree := "", taskowner := "o" }
    COMMAND_TREE "update" "" "http://127.0.0.1:8080/update"
    { task := Task.mk "1" "0" [] [], data := none }
    (Task.mk "1" "0" [] []) [] [] rfl⟩

end Irmin
